import Mathlib

/-!
Shallow embedding of the progress/mastery tracking subsystem of the STEMentor
backend (`backend/app/services/progress_service.py` together with the data
model in `backend/app/models/progress.py` and `backend/app/models/document.py`).

Conventions of the embedding:
* Python floats (`success_rate`, `confidence_score`, …) are modelled by `ℚ`.
* Python `datetime` values are modelled by `ℕ` instants; `None`-able columns
  become `Option`.
* The SQLAlchemy session is modelled away: each service method becomes a pure
  function from its database inputs (lists of records, a topic lookup) to its
  result, mirroring the Python control flow statement by statement.
-/

namespace STEMentor

/-- `MasteryLevel` enum from `models/progress.py`. -/
inductive MasteryLevel where
  | not_started
  | learning
  | practicing
  | mastered
deriving DecidableEq, Repr

/-- The string `.value` of a `MasteryLevel` member (`models/progress.py`). -/
def MasteryLevel.value : MasteryLevel → String
  | .not_started => "not_started"
  | .learning => "learning"
  | .practicing => "practicing"
  | .mastered => "mastered"

/-- `ProgressRecord` ORM entity (`models/progress.py`), restricted to the
columns the progress service reads or writes. -/
structure ProgressRecord where
  user_id : ℕ
  topic_id : ℕ
  mastery_level : MasteryLevel := .not_started
  confidence_score : ℚ := 0
  time_spent_minutes : ℕ := 0
  total_attempts : ℕ := 0
  successful_attempts : ℕ := 0
  success_rate : ℚ := 0
  last_practice_at : Option ℕ := none
  mastery_achieved_at : Option ℕ := none
  perceived_difficulty : Option ℚ := none
deriving DecidableEq, Repr

/-- `Topic` ORM entity (`models/document.py`), restricted to the columns the
progress service reads.  `prerequisites` is a JSON list of topic ids that is
nullable at the column level, hence `Option`. -/
structure Topic where
  id : ℕ
  title : String
  subject : Option String := none
  difficulty_level : Option String := none
  estimated_time_minutes : Option ℕ := none
  prerequisites : Option (List ℕ) := none
deriving DecidableEq, Repr

/-- Modelled from the spec: the `SkillAssessment` input schema
(`app/schemas/progress.py` is imported by the service but absent from the
sources; fields follow §4.1 `applyAssessment` and the service's reads:
`topic_id`, `is_correct` nullable boolean, plus the pass-through assessment
metadata). -/
structure SkillAssessment where
  topic_id : ℕ
  is_correct : Option Bool := none
  score : Option ℚ := none
  max_score : Option ℚ := none
  time_taken_seconds : Option ℕ := none
deriving DecidableEq, Repr

/-- Modelled from the spec: the `ProgressUpdate` partial-update schema
(`app/schemas/progress.py` is absent from the sources; fields follow §4.1
`applyManualUpdate`: optional mastery override, confidence, incremental
time, perceived difficulty, all optional). -/
structure ProgressUpdate where
  topic_id : ℕ
  mastery_level : Option MasteryLevel := none
  confidence_score : Option ℚ := none
  time_spent_minutes : Option ℕ := none
  perceived_difficulty : Option ℚ := none
deriving DecidableEq, Repr

/-- `_update_mastery_level` (`progress_service.py:452-467`): recompute the
mastery level of a record from `total_attempts`, `success_rate` and
`confidence_score`; on entering MASTERED stamp `mastery_achieved_at` when it
is still unset (`if not progress_record.mastery_achieved_at`). -/
def updateMasteryLevel (now : ℕ) (r : ProgressRecord) : ProgressRecord :=
  let success_rate := r.success_rate
  let confidence := r.confidence_score
  let attempts := r.total_attempts
  if 5 ≤ attempts ∧ 9/10 ≤ success_rate ∧ 8/10 ≤ confidence then
    { r with
      mastery_level := .mastered
      mastery_achieved_at :=
        match r.mastery_achieved_at with
        | none => some now
        | some t => some t }
  else if 3 ≤ attempts ∧ 7/10 ≤ success_rate then
    { r with mastery_level := .practicing }
  else if 1 ≤ attempts then
    { r with mastery_level := .learning }
  else
    { r with mastery_level := .not_started }

/-- The progress-metric mutations of `record_skill_assessment`
(`progress_service.py:169-175`): bump `total_attempts`, bump
`successful_attempts` iff `assessment.is_correct` is truthy (i.e. `True`, not
`None`/`False`), recompute `success_rate`, stamp `last_practice_at`. -/
def applyAssessmentMetrics (now : ℕ) (a : SkillAssessment)
    (r : ProgressRecord) : ProgressRecord :=
  let r := { r with total_attempts := r.total_attempts + 1 }
  let r :=
    if a.is_correct = some true then
      { r with successful_attempts := r.successful_attempts + 1 }
    else r
  { r with
    success_rate := (r.successful_attempts : ℚ) / (r.total_attempts : ℚ)
    last_practice_at := some now }

/-- `record_skill_assessment` (`progress_service.py:136-180`), restricted to
its effect on the progress record: apply the metric mutations of lines
169-175, then rerun `_update_mastery_level` (line 178). -/
def recordSkillAssessment (now : ℕ) (a : SkillAssessment) (r : ProgressRecord) :
    ProgressRecord :=
  updateMasteryLevel now (applyAssessmentMetrics now a r)

/-- The fresh record created lazily by `record_skill_assessment` /
`update_topic_progress` when no `(user, topic)` row exists: every metric
column takes its model default. -/
def freshProgressRecord (user_id topic_id : ℕ) : ProgressRecord :=
  { user_id := user_id, topic_id := topic_id }

/-- `update_topic_progress` (`progress_service.py:182-213`): partial update.
Python truthiness is mirrored: the mastery override is applied when present
(every enum member is a non-empty string, hence truthy), `confidence_score`
and `perceived_difficulty` use `is not None` checks, and
`time_spent_minutes` is added only when present and non-zero (`0` is falsy).
The function does not touch `mastery_level` otherwise and never calls
`_update_mastery_level`. -/
def updateTopicProgress (now : ℕ) (u : ProgressUpdate) (r : ProgressRecord) :
    ProgressRecord :=
  let r :=
    match u.mastery_level with
    | some m => { r with mastery_level := m }
    | none => r
  let r :=
    match u.confidence_score with
    | some c => { r with confidence_score := c }
    | none => r
  let r :=
    match u.time_spent_minutes with
    | some t =>
        if t ≠ 0 then { r with time_spent_minutes := r.time_spent_minutes + t }
        else r
    | none => r
  let r :=
    match u.perceived_difficulty with
    | some d => { r with perceived_difficulty := some d }
    | none => r
  { r with last_practice_at := some now }

/-- The mastery state machine of §4.1 written as the pure classification
function of `(total_attempts, success_rate, confidence_score)`; it is the
branch structure of `_update_mastery_level` with the side effects removed. -/
def classifyMastery (attempts : ℕ) (success_rate confidence : ℚ) :
    MasteryLevel :=
  if 5 ≤ attempts ∧ 9/10 ≤ success_rate ∧ 8/10 ≤ confidence then .mastered
  else if 3 ≤ attempts ∧ 7/10 ≤ success_rate then .practicing
  else if 1 ≤ attempts then .learning
  else .not_started

/-- `_find_topics_ready_for_learning` (`progress_service.py:424-450`): keep a
topic iff every id of `topic.prerequisites or []` lies in the mastered-id set
and the topic's own id does not.  The mastered set is passed in as the list
of mastered topic ids (the Python set is modelled by list membership). -/
def findTopicsReadyForLearning (all_topics : List Topic)
    (mastered_topic_ids : List ℕ) : List Topic :=
  all_topics.filter fun topic =>
    let prerequisites := (topic.prerequisites.getD [])
    prerequisites.all (fun prereq_id => mastered_topic_ids.contains prereq_id)
      && !(mastered_topic_ids.contains topic.id)

/-- One recommendation dict produced by `generate_recommendations`. -/
structure Recommendation where
  type : String
  priority : String
  topic_id : ℕ
  topic_title : String
  reason : String
  suggested_action : String
  estimated_time_minutes : ℕ
deriving DecidableEq, Repr

/-- The f-string `f"Low success rate ({record.success_rate:.1%})"`; the
numeric rendering of the float is abstracted into `toString` of the exact
rational, which no property below inspects. -/
def lowSuccessRateReason (success_rate : ℚ) : String :=
  "Low success rate (" ++ toString (success_rate * 100) ++ "%)"

/-- The review recommendation built at `progress_service.py:111-119` for a
struggling record whose topic lookup succeeded. -/
def mkReviewRecommendation (topic : Topic) (record : ProgressRecord) :
    Recommendation :=
  { type := "review"
    priority := if record.success_rate < 1/2 then "high" else "medium"
    topic_id := topic.id
    topic_title := topic.title
    reason := lowSuccessRateReason record.success_rate
    suggested_action := "Review fundamentals and practice problems"
    estimated_time_minutes := 45 }

/-- The new-topic recommendation built at `progress_service.py:124-132`. -/
def mkNewTopicRecommendation (topic : Topic) : Recommendation :=
  { type := "new_topic"
    priority := "medium"
    topic_id := topic.id
    topic_title := topic.title
    reason := "Prerequisites completed"
    suggested_action := "Start learning this new topic"
    estimated_time_minutes := topic.estimated_time_minutes.getD 60 }

/-- The struggling filter at `progress_service.py:99-102`:
`success_rate < 0.7 or confidence_score < 0.6`. -/
def isStruggling (record : ProgressRecord) : Bool :=
  decide (record.success_rate < 7/10) || decide (record.confidence_score < 6/10)

/-- The review phase of `generate_recommendations`
(`progress_service.py:98-119`): slice the struggling records to `limit`, look
each topic up, and append a review recommendation for every record whose
topic is found (`if topic:`). -/
def reviewRecommendations (topicOf : ℕ → Option Topic)
    (progress_records : List ProgressRecord) (limit : ℕ) :
    List Recommendation :=
  ((progress_records.filter isStruggling).take limit).filterMap fun record =>
    (topicOf record.topic_id).map fun topic => mkReviewRecommendation topic record

/-- `generate_recommendations` (`progress_service.py:88-134`).  The database
reads are made explicit: `topicOf` is the topic-by-id lookup, `all_topics`
the full topic table, and `progress_records` the learner's progress rows
(from which the mastered-id set of `_find_topics_ready_for_learning` is also
derived, as that helper queries the same rows filtered to MASTERED). -/
def generateRecommendations (topicOf : ℕ → Option Topic)
    (all_topics : List Topic) (progress_records : List ProgressRecord)
    (limit : ℕ) : List Recommendation :=
  let recommendations := reviewRecommendations topicOf progress_records limit
  let mastered_topic_ids :=
    (progress_records.filter fun r => r.mastery_level = .mastered).map
      (fun r => r.topic_id)
  let ready_topics := findTopicsReadyForLearning all_topics mastered_topic_ids
  recommendations ++
    (ready_topics.take (limit - recommendations.length)).map
      mkNewTopicRecommendation

/-- The result dict of `calculate_study_streak`. -/
structure StreakStats where
  current_streak : ℕ
  longest_streak : ℕ
  streak_maintained : Bool
deriving DecidableEq, Repr

/-- Whether at least one study session starts on calendar day `d`
(`func.date(StudySession.start_time) == check_date` at
`progress_service.py:399-407`); sessions are given by the list of calendar
days (as `ℤ` day numbers) on which each one starts. -/
def hasActivityOn (session_days : List ℤ) (d : ℤ) : Bool :=
  session_days.contains d

/-- The `for i in range(365)` walk of `calculate_study_streak`
(`progress_service.py:395-416`), written with the remaining iteration count
as structural fuel (`fuel = 365 - i`).  On an active day the streak and its
running maximum advance; on an inactive day the loop breaks when `i == 0`
(today) or when a streak had already accumulated, and otherwise continues. -/
def streakWalk (session_days : List ℤ) (today : ℤ) :
    ℕ → ℕ → ℕ → ℕ → ℕ × ℕ
  | 0, _, streak_days, longest_streak => (streak_days, longest_streak)
  | fuel + 1, i, streak_days, longest_streak =>
    if hasActivityOn session_days (today - (i : ℤ)) then
      streakWalk session_days today fuel (i + 1) (streak_days + 1)
        (max longest_streak (streak_days + 1))
    else if i = 0 then (streak_days, longest_streak)
    else if 0 < streak_days then (streak_days, longest_streak)
    else streakWalk session_days today fuel (i + 1) streak_days longest_streak

/-- `calculate_study_streak` (`progress_service.py:385-422`): run the
365-day backward walk from `today` and package the result dict. -/
def calculateStudyStreak (session_days : List ℤ) (today : ℤ) : StreakStats :=
  let result := streakWalk session_days today 365 0 0 0
  { current_streak := result.1
    longest_streak := result.2
    streak_maintained := decide (0 < result.1) }

/-- The per-topic payload stored into `heatmap_data[subject][title]`
(`progress_service.py:43-50`). -/
structure HeatmapCell where
  mastery : String
  confidence : ℚ
  time_spent : ℕ
  success_rate : ℚ
  difficulty : String
  last_practice : Option ℕ
deriving DecidableEq, Repr

/-- One entry of a subject's `topics` list in the structured heatmap
(`progress_service.py:61-69`). -/
structure HeatmapTopic where
  name : String
  mastery : String
  confidence : ℚ
  time_spent : ℕ
  success_rate : ℚ
  difficulty : String
  last_practice : Option ℕ
deriving DecidableEq, Repr

/-- One subject block of the structured heatmap. -/
structure HeatmapSubject where
  subject : String
  topics : List HeatmapTopic
deriving DecidableEq, Repr

/-- The `summary` dict of the heatmap payload. -/
structure HeatmapSummary where
  total_topics : ℕ
  mastered_topics : ℕ
  in_progress_topics : ℕ
deriving DecidableEq, Repr

/-- The full return value of `generate_skill_heatmap`. -/
structure SkillHeatmap where
  heatmap : List HeatmapSubject
  summary : HeatmapSummary
deriving DecidableEq, Repr

/-- Python-dict assignment `d[k] = v` on an insertion-ordered association
list: overwrite in place when the key exists, append otherwise. -/
def dictInsert {α : Type} (l : List (String × α)) (k : String) (v : α) :
    List (String × α) :=
  match l with
  | [] => [(k, v)]
  | (k', v') :: rest =>
      if k' = k then (k, v) :: rest else (k', v') :: dictInsert rest k v

/-- `heatmap_data[subject_name][topic.title] = cell` on the
`defaultdict(lambda: defaultdict(dict))`: materialise the subject bucket on
first touch, then dict-assign the title inside it. -/
def heatmapInsert (hm : List (String × List (String × HeatmapCell)))
    (subject_name title : String) (cell : HeatmapCell) :
    List (String × List (String × HeatmapCell)) :=
  match hm with
  | [] => [(subject_name, [(title, cell)])]
  | (s, topics) :: rest =>
      if s = subject_name then (s, dictInsert topics title cell) :: rest
      else (s, topics) :: heatmapInsert rest subject_name title cell

/-- `topic.subject or "General"` — Python truthiness: `None` and the empty
string both fall back to `"General"`. -/
def subjectName (topic : Topic) : String :=
  match topic.subject with
  | some s => if s = "" then "General" else s
  | none => "General"

/-- The cell built for one `(record, topic)` pair
(`progress_service.py:43-50`); `topic.difficulty_level or "intermediate"`
follows Python truthiness like `subjectName`. -/
def mkHeatmapCell (record : ProgressRecord) (topic : Topic) : HeatmapCell :=
  { mastery := record.mastery_level.value
    confidence := record.confidence_score
    time_spent := record.time_spent_minutes
    success_rate := record.success_rate
    difficulty :=
      match topic.difficulty_level with
      | some d => if d = "" then "intermediate" else d
      | none => "intermediate"
    last_practice := record.last_practice_at }

/-- `generate_skill_heatmap` (`progress_service.py:21-86`).  The initial
query is a join of the records with their topic, filtered by
`Topic.subject == subject` when a subject is given; the loop then re-fetches
each record's topic, skips records whose topic is missing, groups the rest
into the nested dict, and the structured heatmap plus summary counters are
computed from the grouping. -/
def generateSkillHeatmap (topicOf : ℕ → Option Topic)
    (subject : Option String) (records : List ProgressRecord) : SkillHeatmap :=
  let progress_records :=
    records.filter fun r =>
      match topicOf r.topic_id with
      | some t =>
          match subject with
          | some s => t.subject = some s
          | none => true
      | none => false
  let heatmap_data :=
    progress_records.foldl
      (fun hm record =>
        match topicOf record.topic_id with
        | some topic =>
            heatmapInsert hm (subjectName topic) topic.title
              (mkHeatmapCell record topic)
        | none => hm)
      []
  let structured_heatmap : List HeatmapSubject :=
    heatmap_data.map fun sub =>
      { subject := sub.1
        topics := sub.2.map fun td =>
          { name := td.1
            mastery := td.2.mastery
            confidence := td.2.confidence
            time_spent := td.2.time_spent
            success_rate := td.2.success_rate
            difficulty := td.2.difficulty
            last_practice := td.2.last_practice } }
  { heatmap := structured_heatmap
    summary :=
      { total_topics :=
          (structured_heatmap.map fun s => s.topics.length).sum
        mastered_topics :=
          (structured_heatmap.map fun s =>
            (s.topics.filter fun t => t.mastery = "mastered").length).sum
        in_progress_topics :=
          (structured_heatmap.map fun s =>
            (s.topics.filter fun t =>
              t.mastery = "learning" ∨ t.mastery = "practicing").length).sum } }

/-- A record on which both the MASTERED metric thresholds and a stale
non-MASTERED `mastery_level` coexist; used to exercise
`update_topic_progress`. -/
def c9Record : ProgressRecord :=
  { user_id := 1, topic_id := 1, mastery_level := .practicing,
    confidence_score := 1/2, total_attempts := 5, successful_attempts := 5,
    success_rate := 1 }

/-- A manual update raising the confidence score past the MASTERED
threshold. -/
def c9Update : ProgressUpdate :=
  { topic_id := 1, confidence_score := some (9/10) }

/-- A correct assessment, used to instantiate the universal theorems. -/
def wAssessmentCorrect : SkillAssessment :=
  { topic_id := 1, is_correct := some true }

/-- A record one correct attempt away from the MASTERED thresholds. -/
def wRecordNearMastery : ProgressRecord :=
  { user_id := 1, topic_id := 1, total_attempts := 4,
    successful_attempts := 4, confidence_score := 9/10 }

/-- A record whose `mastery_achieved_at` is already stamped. -/
def wRecordStamped : ProgressRecord :=
  { user_id := 1, topic_id := 1, mastery_achieved_at := some 7 }

/-- A small manual update, used to instantiate the universal theorems. -/
def wUpdate : ProgressUpdate :=
  { topic_id := 1, confidence_score := some (1/2) }

/-! ## Helper lemmas -/

theorem updateMasteryLevel_spec (now : ℕ) (r : ProgressRecord) :
    (updateMasteryLevel now r).user_id = r.user_id ∧
    (updateMasteryLevel now r).topic_id = r.topic_id ∧
    (updateMasteryLevel now r).total_attempts = r.total_attempts ∧
    (updateMasteryLevel now r).successful_attempts = r.successful_attempts ∧
    (updateMasteryLevel now r).success_rate = r.success_rate ∧
    (updateMasteryLevel now r).confidence_score = r.confidence_score ∧
    (updateMasteryLevel now r).mastery_level
      = classifyMastery r.total_attempts r.success_rate r.confidence_score := by
  unfold updateMasteryLevel classifyMastery
  dsimp only
  split_ifs <;> exact ⟨rfl, rfl, rfl, rfl, rfl, rfl, rfl⟩

theorem updateMasteryLevel_achieved (now : ℕ) (r : ProgressRecord) :
    ((updateMasteryLevel now r).mastery_level = .mastered →
      r.mastery_achieved_at = none →
      (updateMasteryLevel now r).mastery_achieved_at = some now) ∧
    (∀ t, r.mastery_achieved_at = some t →
      (updateMasteryLevel now r).mastery_achieved_at = some t) := by
  unfold updateMasteryLevel
  dsimp only
  split_ifs <;> cases h : r.mastery_achieved_at <;> simp_all

theorem applyAssessmentMetrics_achieved (now : ℕ) (a : SkillAssessment)
    (r : ProgressRecord) :
    (applyAssessmentMetrics now a r).mastery_achieved_at
      = r.mastery_achieved_at := by
  unfold applyAssessmentMetrics
  split_ifs <;> rfl

theorem updateTopicProgress_fields (now : ℕ) (u : ProgressUpdate)
    (r : ProgressRecord) :
    (updateTopicProgress now u r).mastery_achieved_at = r.mastery_achieved_at ∧
    (updateTopicProgress now u r).mastery_level
      = u.mastery_level.getD r.mastery_level ∧
    (updateTopicProgress now u r).total_attempts = r.total_attempts ∧
    (updateTopicProgress now u r).success_rate = r.success_rate := by
  rcases u with ⟨tid, ml, cs, tm, pd⟩
  unfold updateTopicProgress
  cases ml <;> cases cs <;> cases tm <;> cases pd <;> (try dsimp only) <;>
    (try split) <;> simp [Option.getD]

theorem classifyMastery_iff (attempts : ℕ) (sr c : ℚ) :
    (classifyMastery attempts sr c = .mastered ↔
      5 ≤ attempts ∧ 9/10 ≤ sr ∧ 8/10 ≤ c) ∧
    (classifyMastery attempts sr c = .practicing ↔
      ¬(5 ≤ attempts ∧ 9/10 ≤ sr ∧ 8/10 ≤ c) ∧ 3 ≤ attempts ∧ 7/10 ≤ sr) ∧
    (classifyMastery attempts sr c = .learning ↔
      ¬(5 ≤ attempts ∧ 9/10 ≤ sr ∧ 8/10 ≤ c) ∧
      ¬(3 ≤ attempts ∧ 7/10 ≤ sr) ∧ 1 ≤ attempts) ∧
    (classifyMastery attempts sr c = .not_started ↔
      ¬(5 ≤ attempts ∧ 9/10 ≤ sr ∧ 8/10 ≤ c) ∧
      ¬(3 ≤ attempts ∧ 7/10 ≤ sr) ∧ ¬(1 ≤ attempts)) := by
  unfold classifyMastery
  split_ifs <;> simp_all

/-! ## Claim theorems -/

/-- C1: after an assessment is applied, the mastery level is MASTERED iff
`total_attempts ≥ 5 ∧ success_rate ≥ 0.9 ∧ confidence_score ≥ 0.8`,
otherwise PRACTICING iff `total_attempts ≥ 3 ∧ success_rate ≥ 0.7`,
otherwise LEARNING iff `total_attempts ≥ 1`, otherwise NOT_STARTED; the
classification depends only on the record's post-update metrics, with the
higher thresholds checked first. -/
theorem mastery_state_machine_after_assessment (now : ℕ) (a : SkillAssessment)
    (r : ProgressRecord) :
    ((recordSkillAssessment now a r).mastery_level = .mastered ↔
      5 ≤ (recordSkillAssessment now a r).total_attempts ∧
      9/10 ≤ (recordSkillAssessment now a r).success_rate ∧
      8/10 ≤ (recordSkillAssessment now a r).confidence_score) ∧
    ((recordSkillAssessment now a r).mastery_level = .practicing ↔
      ¬(5 ≤ (recordSkillAssessment now a r).total_attempts ∧
        9/10 ≤ (recordSkillAssessment now a r).success_rate ∧
        8/10 ≤ (recordSkillAssessment now a r).confidence_score) ∧
      3 ≤ (recordSkillAssessment now a r).total_attempts ∧
      7/10 ≤ (recordSkillAssessment now a r).success_rate) ∧
    ((recordSkillAssessment now a r).mastery_level = .learning ↔
      ¬(5 ≤ (recordSkillAssessment now a r).total_attempts ∧
        9/10 ≤ (recordSkillAssessment now a r).success_rate ∧
        8/10 ≤ (recordSkillAssessment now a r).confidence_score) ∧
      ¬(3 ≤ (recordSkillAssessment now a r).total_attempts ∧
        7/10 ≤ (recordSkillAssessment now a r).success_rate) ∧
      1 ≤ (recordSkillAssessment now a r).total_attempts) ∧
    ((recordSkillAssessment now a r).mastery_level = .not_started ↔
      ¬(5 ≤ (recordSkillAssessment now a r).total_attempts ∧
        9/10 ≤ (recordSkillAssessment now a r).success_rate ∧
        8/10 ≤ (recordSkillAssessment now a r).confidence_score) ∧
      ¬(3 ≤ (recordSkillAssessment now a r).total_attempts ∧
        7/10 ≤ (recordSkillAssessment now a r).success_rate) ∧
      ¬(1 ≤ (recordSkillAssessment now a r).total_attempts)) := by
  obtain ⟨-, -, ht, -, hs, hc, hm⟩ :=
    updateMasteryLevel_spec now (applyAssessmentMetrics now a r)
  unfold recordSkillAssessment
  rw [ht, hs, hc, hm]
  exact classifyMastery_iff _ _ _

/-- C1 witness: the MASTERED branch of the classification, instantiated at a
record that crosses all three thresholds on its fifth correct attempt. -/
theorem mastery_state_machine_after_assessment_witness :
    (recordSkillAssessment 3 wAssessmentCorrect wRecordNearMastery).mastery_level
        = .mastered ↔
      5 ≤ (recordSkillAssessment 3 wAssessmentCorrect
            wRecordNearMastery).total_attempts ∧
      9/10 ≤ (recordSkillAssessment 3 wAssessmentCorrect
            wRecordNearMastery).success_rate ∧
      8/10 ≤ (recordSkillAssessment 3 wAssessmentCorrect
            wRecordNearMastery).confidence_score :=
  (mastery_state_machine_after_assessment 3 wAssessmentCorrect
    wRecordNearMastery).1

/-- C2: each applied assessment increments `total_attempts` by exactly one,
increments `successful_attempts` by one iff `is_correct` is true (null or
false leaves it unchanged), and afterwards `success_rate` equals
`successful_attempts / total_attempts`; quantified over every reachable
record state, this covers every step of every assessment sequence. -/
theorem assessment_metrics_invariant (now : ℕ) (a : SkillAssessment)
    (r : ProgressRecord) :
    (recordSkillAssessment now a r).total_attempts = r.total_attempts + 1 ∧
    (recordSkillAssessment now a r).successful_attempts
      = r.successful_attempts
        + (if a.is_correct = some true then 1 else 0) ∧
    (recordSkillAssessment now a r).success_rate
      = ((recordSkillAssessment now a r).successful_attempts : ℚ)
        / ((recordSkillAssessment now a r).total_attempts : ℚ) := by
  obtain ⟨-, -, ht, hsucc, hs, -, -⟩ :=
    updateMasteryLevel_spec now (applyAssessmentMetrics now a r)
  unfold recordSkillAssessment
  rw [ht, hsucc, hs]
  unfold applyAssessmentMetrics
  split_ifs <;> simp

/-- C3: `mastery_achieved_at` is stamped with the current time on the first
transition into MASTERED, and once set neither an assessment nor a manual
update ever overwrites or clears it. -/
theorem mastery_achieved_at_stamped_once (now : ℕ) (a : SkillAssessment)
    (u : ProgressUpdate) (r : ProgressRecord) :
    (r.mastery_achieved_at = none →
      (recordSkillAssessment now a r).mastery_level = .mastered →
      (recordSkillAssessment now a r).mastery_achieved_at = some now) ∧
    (∀ t, r.mastery_achieved_at = some t →
      (recordSkillAssessment now a r).mastery_achieved_at = some t) ∧
    (∀ t, r.mastery_achieved_at = some t →
      (updateTopicProgress now u r).mastery_achieved_at = some t) := by
  refine ⟨?_, ?_, ?_⟩
  · intro hnone hm
    unfold recordSkillAssessment at hm ⊢
    exact (updateMasteryLevel_achieved now _).1 hm
      (by rw [applyAssessmentMetrics_achieved]; exact hnone)
  · intro t ht
    unfold recordSkillAssessment
    exact (updateMasteryLevel_achieved now _).2 t
      (by rw [applyAssessmentMetrics_achieved]; exact ht)
  · intro t ht
    rw [(updateTopicProgress_fields now u r).1]
    exact ht

/-- C3 witness: the stamp is written on a first transition into MASTERED,
and an already-stamped time survives both a further assessment and a manual
update. -/
theorem mastery_achieved_at_stamped_once_witness :
    (recordSkillAssessment 42 wAssessmentCorrect
      wRecordNearMastery).mastery_achieved_at = some 42 ∧
    (recordSkillAssessment 42 wAssessmentCorrect
      wRecordStamped).mastery_achieved_at = some 7 ∧
    (updateTopicProgress 42 wUpdate wRecordStamped).mastery_achieved_at
      = some 7 :=
  ⟨(mastery_achieved_at_stamped_once 42 wAssessmentCorrect wUpdate
      wRecordNearMastery).1 rfl (by
        simp [recordSkillAssessment, applyAssessmentMetrics,
          updateMasteryLevel, wAssessmentCorrect, wRecordNearMastery]
        norm_num),
   (mastery_achieved_at_stamped_once 42 wAssessmentCorrect wUpdate
      wRecordStamped).2.1 7 rfl,
   (mastery_achieved_at_stamped_once 42 wAssessmentCorrect wUpdate
      wRecordStamped).2.2 7 rfl⟩

/-- C4: the prerequisite resolver returns a topic iff it is in the topic
table, every id in its prerequisite list (absent list meaning empty) is in
the mastered set, and its own id is not mastered; in particular a topic with
an empty prerequisite list is returned whenever it is not itself mastered. -/
theorem prerequisite_resolver_characterization (all_topics : List Topic)
    (mastered_topic_ids : List ℕ) (t : Topic) :
    (t ∈ findTopicsReadyForLearning all_topics mastered_topic_ids ↔
      t ∈ all_topics ∧
      (∀ p ∈ t.prerequisites.getD [], p ∈ mastered_topic_ids) ∧
      t.id ∉ mastered_topic_ids) ∧
    (t ∈ all_topics → t.prerequisites.getD [] = [] →
      t.id ∉ mastered_topic_ids →
      t ∈ findTopicsReadyForLearning all_topics mastered_topic_ids) := by
  have hmain :
      t ∈ findTopicsReadyForLearning all_topics mastered_topic_ids ↔
        t ∈ all_topics ∧
        (∀ p ∈ t.prerequisites.getD [], p ∈ mastered_topic_ids) ∧
        t.id ∉ mastered_topic_ids := by
    unfold findTopicsReadyForLearning
    simp [List.mem_filter, List.all_eq_true]
  refine ⟨hmain, fun h1 h2 h3 => hmain.mpr ⟨h1, by simp [h2], h3⟩⟩

/-- C4 witness: a topic with no prerequisites and an empty mastered set is
returned by the resolver. -/
theorem prerequisite_resolver_characterization_witness :
    ({ id := 1, title := "A" } : Topic) ∈
      findTopicsReadyForLearning [{ id := 1, title := "A" }] [] :=
  (prerequisite_resolver_characterization [{ id := 1, title := "A" }] []
    { id := 1, title := "A" }).2 (by simp) rfl (by simp)

/-- C5: the recommendation list splits as review entries followed by
new-topic entries with no interleaving; the review block consumes at most
`limit` slots, the new-topic block at most the remaining
`limit - review_count` slots, and the whole list has length at most
`limit`. -/
theorem recommendation_ordering_and_limit (topicOf : ℕ → Option Topic)
    (all_topics : List Topic) (records : List ProgressRecord) (limit : ℕ) :
    (generateRecommendations topicOf all_topics records limit).length
        ≤ limit ∧
    ∃ revs news,
      generateRecommendations topicOf all_topics records limit
          = revs ++ news ∧
      (∀ x ∈ revs, x.type = "review") ∧
      (∀ x ∈ news, x.type = "new_topic") ∧
      revs.length ≤ limit ∧
      news.length ≤ limit - revs.length := by
  have hrev_len :
      (reviewRecommendations topicOf records limit).length ≤ limit := by
    calc (reviewRecommendations topicOf records limit).length
        ≤ ((records.filter isStruggling).take limit).length :=
          List.length_filterMap_le _ _
      _ ≤ limit := by
          rw [List.length_take]
          exact min_le_left _ _
  have hsplit :
      generateRecommendations topicOf all_topics records limit
        = reviewRecommendations topicOf records limit ++
          ((findTopicsReadyForLearning all_topics
              ((records.filter fun r => r.mastery_level = .mastered).map
                (fun r => r.topic_id))).take
            (limit - (reviewRecommendations topicOf records limit).length)).map
            mkNewTopicRecommendation := rfl
  have hnews_len :
      (((findTopicsReadyForLearning all_topics
          ((records.filter fun r => r.mastery_level = .mastered).map
            (fun r => r.topic_id))).take
          (limit - (reviewRecommendations topicOf records limit).length)).map
          mkNewTopicRecommendation).length
        ≤ limit - (reviewRecommendations topicOf records limit).length := by
    rw [List.length_map, List.length_take]
    exact min_le_left _ _
  refine ⟨?_, reviewRecommendations topicOf records limit, _, hsplit, ?_, ?_,
    hrev_len, hnews_len⟩
  · rw [hsplit, List.length_append]
    omega
  · intro x hx
    unfold reviewRecommendations at hx
    obtain ⟨r, -, hmap⟩ := List.mem_filterMap.mp hx
    obtain ⟨tp, -, rfl⟩ := Option.map_eq_some'.mp hmap
    rfl
  · intro x hx
    obtain ⟨tp, -, rfl⟩ := List.mem_map.mp hx
    rfl

/-- C5 witness: the length bound and the split, instantiated on empty
inputs with `limit = 10`. -/
theorem recommendation_ordering_and_limit_witness :
    (generateRecommendations (fun _ => none) [] [] 10).length ≤ 10 :=
  (recommendation_ordering_and_limit (fun _ => none) [] [] 10).1

/-- C6: when every topic id resolves (foreign-key integrity), the review
phase emits exactly one recommendation per struggling record — success rate
below 0.7 or confidence below 0.6 — up to the limit, with priority `"high"`
iff the success rate is below 0.5 and `"medium"` otherwise, and a fixed
45-minute estimate. -/
theorem review_recommendation_content (topicF : ℕ → Topic)
    (records : List ProgressRecord) (limit : ℕ) :
    reviewRecommendations (fun i => some (topicF i)) records limit
      = ((records.filter fun r =>
            decide (r.success_rate < 7/10)
              || decide (r.confidence_score < 6/10)).take limit).map
          fun r =>
            { type := "review"
              priority := if r.success_rate < 1/2 then "high" else "medium"
              topic_id := (topicF r.topic_id).id
              topic_title := (topicF r.topic_id).title
              reason := lowSuccessRateReason r.success_rate
              suggested_action := "Review fundamentals and practice problems"
              estimated_time_minutes := 45 } := by
  show ((records.filter isStruggling).take limit).filterMap _
      = ((records.filter isStruggling).take limit).map _
  generalize (records.filter isStruggling).take limit = l
  induction l with
  | nil => rfl
  | cons a l ih =>
      simp only [List.filterMap_cons, List.map_cons, Option.map_some']
      exact congrArg₂ List.cons rfl ih

/-- C7 counterexample: with sessions exactly on days `D-1` and `D-2` and
none on day `D = 10` (today), the streak calculation returns
`current_streak = 0`, not the `2` the claim states: the walk breaks at
today's absence before counting any prior day. -/
theorem streak_inactive_today_counterexample :
    hasActivityOn [9, 8] (10 - 1) = true ∧
    hasActivityOn [9, 8] (10 - 2) = true ∧
    hasActivityOn [9, 8] 10 = false ∧
    (calculateStudyStreak [9, 8] 10).current_streak = 0 := by
  decide

theorem streakWalk_break_today (session_days : List ℤ) (today : ℤ)
    (fuel s l : ℕ) (h : hasActivityOn session_days today = false) :
    streakWalk session_days today (fuel + 1) 0 s l = (s, l) := by
  unfold streakWalk
  simp [h]

/-- C7 amended: an inactive today zeroes the streak: for every session
history with sessions on days `D-1` and `D-2` and none on day `D` (today),
the streak calculation returns `current_streak = 0` (with
`longest_streak = 0` and `streak_maintained = false`) — the backward walk
breaks immediately at today's absence and never counts the prior active
days. -/
theorem streak_zeroed_by_inactive_today (session_days : List ℤ) (today : ℤ)
    (_h1 : hasActivityOn session_days (today - 1) = true)
    (_h2 : hasActivityOn session_days (today - 2) = true)
    (h0 : hasActivityOn session_days today = false) :
    calculateStudyStreak session_days today
      = { current_streak := 0, longest_streak := 0,
          streak_maintained := false } := by
  have h365 : streakWalk session_days today 365 0 0 0 = (0, 0) :=
    streakWalk_break_today session_days today 364 0 0 h0
  unfold calculateStudyStreak
  rw [h365]
  rfl

/-- C7 witness: the amended behaviour at the concrete history with sessions
on days 9 and 8 and today = 10. -/
theorem streak_zeroed_by_inactive_today_witness :
    calculateStudyStreak [9, 8] 10
      = { current_streak := 0, longest_streak := 0,
          streak_maintained := false } :=
  streak_zeroed_by_inactive_today [9, 8] 10 (by decide) (by decide)
    (by decide)

theorem streakWalk_longest_eq (session_days : List ℤ) (today : ℤ) :
    ∀ fuel i s, (streakWalk session_days today fuel i s s).2
      = (streakWalk session_days today fuel i s s).1 := by
  intro fuel
  induction fuel with
  | zero => intro i s; rfl
  | succ n ih =>
      intro i s
      unfold streakWalk
      split_ifs with h1 h2 h3
      · rw [show max s (s + 1) = s + 1 from max_eq_right (Nat.le_succ s)]
        exact ih (i + 1) (s + 1)
      · rfl
      · rfl
      · exact ih (i + 1) s

/-- C8: the reported `longest_streak` is only the maximum reached along the
single backward walk from today, so it always equals the returned
`current_streak`; in particular a five-day run of consecutive active days
lying before a gap (days 8..4 with today = 10 active and day 9 inactive) is
not reflected — both counters come out 1. -/
theorem longest_streak_equals_current :
    (∀ (session_days : List ℤ) (today : ℤ),
      (calculateStudyStreak session_days today).longest_streak
        = (calculateStudyStreak session_days today).current_streak) ∧
    (calculateStudyStreak [10, 8, 7, 6, 5, 4] 10).current_streak = 1 ∧
    (calculateStudyStreak [10, 8, 7, 6, 5, 4] 10).longest_streak = 1 := by
  refine ⟨fun session_days today => ?_, by decide, by decide⟩
  unfold calculateStudyStreak
  exact streakWalk_longest_eq session_days today 365 0 0

/-- C9 counterexample: a manual update that lifts `confidence_score` to 0.9
on a record with 5/5 attempts leaves `mastery_level` at PRACTICING although
the classification of the post-update metrics is MASTERED —
`update_topic_progress` never re-runs the state machine. -/
theorem manual_update_mastery_counterexample :
    (updateTopicProgress 0 c9Update c9Record).mastery_level = .practicing ∧
    classifyMastery (updateTopicProgress 0 c9Update c9Record).total_attempts
      (updateTopicProgress 0 c9Update c9Record).success_rate
      (updateTopicProgress 0 c9Update c9Record).confidence_score
      = .mastered ∧
    (updateTopicProgress 0 c9Update c9Record).mastery_level
      ≠ classifyMastery
          (updateTopicProgress 0 c9Update c9Record).total_attempts
          (updateTopicProgress 0 c9Update c9Record).success_rate
          (updateTopicProgress 0 c9Update c9Record).confidence_score := by
  have h2 : classifyMastery
      (updateTopicProgress 0 c9Update c9Record).total_attempts
      (updateTopicProgress 0 c9Update c9Record).success_rate
      (updateTopicProgress 0 c9Update c9Record).confidence_score
      = .mastered := by
    simp [updateTopicProgress, classifyMastery, c9Update, c9Record]
    norm_num
  refine ⟨rfl, h2, ?_⟩
  rw [h2]
  decide

/-- C9 amended: a manual progress update does not re-evaluate the mastery
state machine: after `update_topic_progress` the record's `mastery_level`
equals the update's explicit override when one is provided and is otherwise
unchanged, regardless of the post-update metrics. -/
theorem manual_update_leaves_mastery (now : ℕ) (u : ProgressUpdate)
    (r : ProgressRecord) :
    (updateTopicProgress now u r).mastery_level
      = u.mastery_level.getD r.mastery_level :=
  (updateTopicProgress_fields now u r).2.1

theorem length_filter_disjoint_le {α : Type} (p q : α → Bool) (l : List α)
    (h : ∀ x, p x = true → q x = false) :
    (l.filter p).length + (l.filter q).length ≤ l.length := by
  induction l with
  | nil => simp
  | cons a t ih =>
      by_cases hp : p a = true
      · have hq := h a hp
        simp only [List.filter_cons, hp, hq, if_true, if_false,
          Bool.false_eq_true, List.length_cons]
        omega
      · rw [Bool.not_eq_true] at hp
        by_cases hq : q a = true <;>
          simp only [List.filter_cons, hp, hq, Bool.false_eq_true, if_false,
            if_true, List.length_cons] <;>
          omega

theorem sum_map_add_le_sum_map {α : Type} (f g h : α → ℕ) (l : List α)
    (hle : ∀ x, f x + g x ≤ h x) :
    (l.map f).sum + (l.map g).sum ≤ (l.map h).sum := by
  induction l with
  | nil => simp
  | cons a t ih =>
      simp only [List.map_cons, List.sum_cons]
      have := hle a
      omega

/-- C10: the heatmap is a total function of its inputs; its summary always
satisfies `mastered_topics + in_progress_topics ≤ total_topics`, and on a
learner with zero progress records it returns the empty heatmap with all
three summary counters equal to 0. -/
theorem heatmap_summary_bounds (topicOf : ℕ → Option Topic)
    (subject : Option String) (records : List ProgressRecord) :
    (generateSkillHeatmap topicOf subject records).summary.mastered_topics
        + (generateSkillHeatmap topicOf subject
            records).summary.in_progress_topics
      ≤ (generateSkillHeatmap topicOf subject records).summary.total_topics ∧
    generateSkillHeatmap topicOf subject []
      = { heatmap := [],
          summary := { total_topics := 0, mastered_topics := 0,
                       in_progress_topics := 0 } } := by
  constructor
  · unfold generateSkillHeatmap
    dsimp only
    apply sum_map_add_le_sum_map
    intro s
    apply length_filter_disjoint_le
    intro x hx
    simp only [decide_eq_true_eq] at hx
    simp [hx]
  · rfl


end STEMentor
